import Mathlib

/-!
Shallow embedding of the QR generator (src/1.py) image-synthesis pipeline:
`_make_styled_image`, `_paste_logo_center`, `generate_qr`, together with the
behavior of the external collaborators (the `qrcode` encoder and the PIL
imaging backend) modelled from the spec where the repository delegates to
them. Effects (imports that may fail, exceptions from library calls, the
filesystem) are modelled by explicit environment values; a `try/except`
block becomes a case split on the corresponding outcome.
-/

namespace QRGen

/-- Colors are passed through verbatim to the rasterizer (named or hex). -/
abbrev Color := String

/-- A raster image: width, height and a row-major pixel grid. -/
structure Image where
  width : Nat
  height : Nat
  pixels : List (List Color)
  deriving DecidableEq, Repr

/-- The square boolean module matrix produced by the external encoder. -/
structure ModuleMatrix where
  side : Nat
  dark : List (List Bool)
  deriving DecidableEq, Repr

/-- Build a row-major pixel grid of the given size from a pixel function. -/
def mkGrid (w h : Nat) (f : Nat → Nat → Color) : List (List Color) :=
  (List.range h).map (fun y => (List.range w).map (fun x => f x y))

/-- Darkness of the module at (row, col), light outside the matrix
(the quiet-zone border around the matrix is light). -/
def moduleAt (m : ModuleMatrix) (r c : Int) : Bool :=
  if 0 ≤ r ∧ r < (m.side : Int) ∧ 0 ≤ c ∧ c < (m.side : Int) then
    (m.dark.getD r.toNat []).getD c.toNat false
  else false

/-- Modelled from the spec: the plain default rasterization of the external
imaging backend (`qr.make_image` without a styled factory): each dark module
is a filled `boxSize × boxSize` square, everything else is `back`. -/
def plainPixel (m : ModuleMatrix) (boxSize border : Nat) (fill back : Color)
    (x y : Nat) : Color :=
  if moduleAt m ((y / boxSize : Nat) - (border : Int)) ((x / boxSize : Nat) - (border : Int))
  then fill else back

/-- Pixel side length of the rendered image: `(side + 2*border) * boxSize`. -/
def side_px (m : ModuleMatrix) (boxSize border : Nat) : Nat :=
  (m.side + 2 * border) * boxSize

/-- Modelled from the spec: the plain rendering `qr.make_image(fill_color=...,
back_color=...)` of the external library (the guaranteed square pathway). -/
def lib_make_image (m : ModuleMatrix) (boxSize border : Nat) (fill back : Color) : Image :=
  { width := side_px m boxSize border
    height := side_px m boxSize border
    pixels := mkGrid (side_px m boxSize border) (side_px m boxSize border)
      (plainPixel m boxSize border fill back) }

/-- The six module drawers imported inside `_make_styled_image`. -/
inductive Drawer where
  | square
  | gapped
  | circle
  | rounded
  | vbars
  | hbars
  deriving DecidableEq, Repr

/-- Modelled from the spec: rounded-corner coverage of a local pixel inside a
module cell (corner radius proportional to the box size). -/
def roundedCovered (b lx ly : Nat) : Bool :=
  let r := b / 4
  let ex : Nat := if lx < r then r - lx else if b ≤ lx + r + 1 then lx + r + 1 - b else 0
  let ey : Nat := if ly < r then r - ly else if b ≤ ly + r + 1 then ly + r + 1 - b else 0
  decide (ex * ex + ey * ey ≤ r * r)

/-- Modelled from the spec: whether a drawer paints the local pixel (lx, ly)
of a dark module cell of edge b; the bar drawers additionally look at whether
the neighbouring module along their axis is dark and merge with it. -/
def moduleCovered : Drawer → Nat → Nat → Nat → Bool → Bool → Bool → Bool → Bool
  | .square, _, _, _, _, _, _, _ => true
  | .gapped, b, lx, ly, _, _, _, _ =>
      decide (b / 8 ≤ lx ∧ lx + b / 8 < b ∧ b / 8 ≤ ly ∧ ly + b / 8 < b)
  | .circle, b, lx, ly, _, _, _, _ =>
      decide ((2 * lx + 1 - b : Int) ^ 2 + (2 * ly + 1 - b : Int) ^ 2 ≤ (b : Int) ^ 2)
  | .rounded, b, lx, ly, _, _, _, _ => roundedCovered b lx ly
  | .vbars, b, lx, ly, up, down, _, _ =>
      decide (b / 8 ≤ lx ∧ lx + b / 8 < b) &&
        (decide (b / 8 ≤ ly) || up) && (decide (ly + b / 8 < b) || down)
  | .hbars, b, lx, ly, _, _, lf, rt =>
      decide (b / 8 ≤ ly ∧ ly + b / 8 < b) &&
        (decide (b / 8 ≤ lx) || lf) && (decide (lx + b / 8 < b) || rt)

/-- Modelled from the spec: one pixel of the styled rendering pass: a dark
module is painted with its drawer shape, everything else is `back`. -/
def styledPixel (m : ModuleMatrix) (boxSize border : Nat) (fill back : Color)
    (d : Drawer) (x y : Nat) : Color :=
  let r : Int := (y / boxSize : Nat) - (border : Int)
  let c : Int := (x / boxSize : Nat) - (border : Int)
  if moduleAt m r c &&
      moduleCovered d boxSize (x % boxSize) (y % boxSize)
        (moduleAt m (r - 1) c) (moduleAt m (r + 1) c)
        (moduleAt m r (c - 1)) (moduleAt m r (c + 1))
  then fill else back

/-- Modelled from the spec: `qr.make_image(image_factory=StyledPilImage,
module_drawer=...)` — the styled rendering pass of the external library. -/
def lib_make_image_styled (m : ModuleMatrix) (boxSize border : Nat)
    (fill back : Color) (d : Drawer) : Image :=
  { width := side_px m boxSize border
    height := side_px m boxSize border
    pixels := mkGrid (side_px m boxSize border) (side_px m boxSize border)
      (styledPixel m boxSize border fill back d) }

/-- The `drawer_map` dict of `_make_styled_image` with its
`drawer_map.get(style, SquareModuleDrawer)` default. -/
def drawer_map_get (style : String) : Drawer :=
  if style = "square" then .square
  else if style = "gapped" then .gapped
  else if style = "circle" then .circle
  else if style = "rounded" then .rounded
  else if style = "vbars" then .vbars
  else if style = "hbars" then .hbars
  else .square

/-- The six style strings the code supports. -/
def supported_styles : List String :=
  ["square", "gapped", "circle", "rounded", "vbars", "hbars"]

/-- The state of a `qrcode.QRCode` object after `qr.make(fit=True)`. -/
structure QRState where
  matrix : ModuleMatrix
  box_size : Nat
  border : Nat
  deriving DecidableEq, Repr

/-- Outcome of the `try` body of `_make_styled_image`: the styled imports may
fail (`unavailable`), the styled `make_image` call may raise (`raises`), or
the styled image is built (`ok`). -/
inductive StyledStatus where
  | unavailable
  | raises
  | ok
  deriving DecidableEq, Repr

/-- `_make_styled_image(qr, fill_color, back_color, style)`: try the styled
pathway; on import failure or any exception, fall back to the plain
`qr.make_image(fill_color=..., back_color=...)` rendering. -/
def _make_styled_image (qr : QRState) (fill back : Color) (style : String)
    (st : StyledStatus) : Image :=
  match st with
  | .ok => lib_make_image_styled qr.matrix qr.box_size qr.border fill back (drawer_map_get style)
  | .unavailable => lib_make_image qr.matrix qr.box_size qr.border fill back
  | .raises => lib_make_image qr.matrix qr.box_size qr.border fill back

/-- A decoded logo bitmap (after `convert("RGBA")`): each pixel carries a
color and an opacity flag standing for its alpha channel. -/
structure LogoImage where
  width : Nat
  height : Nat
  pixels : List (List (Color × Bool))
  deriving DecidableEq, Repr

/-- Environment of one `_paste_logo_center` call: the `os.path.isfile` check,
the optional PIL import, the outcome of `Image.open(...).convert("RGBA")`
(`none` means it raised), and whether `resize` or `paste` raise. -/
structure LogoEnv where
  is_file : Bool
  pil_available : Bool
  decoded : Option LogoImage
  resize_raises : Bool
  paste_raises : Bool
  deriving DecidableEq, Repr

/-- Python truthiness on an `int`: `v or d` yields `d` exactly when `v = 0`. -/
def pyOrInt (v d : Int) : Int := if v = 0 then d else v

/-- The percent actually used by `_paste_logo_center`:
`max(5, min(int(logo_pct or 20), 40))` (line 93 of src/1.py). -/
def logo_effective_pct (logo_pct : Int) : Int :=
  max 5 (min (pyOrInt logo_pct 20) 40)

/-- Modelled from the spec: LANCZOS resampling of the external imaging
library, modelled as coordinate sampling; the resample kernel itself is
delegated and not load-bearing for any property stated here. -/
def logo_resize (logo : LogoImage) (w h : Nat) : LogoImage :=
  { width := w
    height := h
    pixels := (List.range h).map (fun y => (List.range w).map (fun x =>
      (logo.pixels.getD (y * logo.height / h) []).getD (x * logo.width / w) ("", false))) }

/-- Modelled from the spec: `pil_img.paste(logo, pos, mask=logo)` — opaque
logo pixels overwrite the image inside the logo footprint, transparent ones
leave it unchanged; the canvas keeps its dimensions. -/
def paste_with_mask (img : Image) (logo : LogoImage) (px py : Int) : Image :=
  { width := img.width
    height := img.height
    pixels := (List.range img.height).map (fun y => (List.range img.width).map (fun x =>
      let bg := (img.pixels.getD y []).getD x ""
      if px ≤ (x : Int) ∧ (x : Int) < px + logo.width ∧
          py ≤ (y : Int) ∧ (y : Int) < py + logo.height then
        let cell := (logo.pixels.getD ((y : Int) - py).toNat []).getD ((x : Int) - px).toNat ("", false)
        if cell.2 then cell.1 else bg
      else bg)) }

/-- `_paste_logo_center(pil_img, logo_path, logo_pct)`: every failure path
(falsy path, missing file, missing PIL, decode error, zero-width logo, or an
exception from resize or paste, all swallowed by the outer `try/except`)
returns the input image unchanged; otherwise the logo is resized to the
clamped fraction of the width, aspect preserved, and pasted centered.
Python float arithmetic (`/ 100.0`, `target_w / logo.width`) is modelled by
exact integer floor division. -/
def _paste_logo_center (pil_img : Image) (logo_path : String) (logo_pct : Int)
    (env : LogoEnv) : Image :=
  if logo_path = "" ∨ env.is_file = false then pil_img
  else if env.pil_available = false then pil_img
  else
    match env.decoded with
    | none => pil_img
    | some logo =>
      if logo.width = 0 then pil_img
      else if env.resize_raises = true ∨ env.paste_raises = true then pil_img
      else
        let qr_w := pil_img.width
        let qr_h := pil_img.height
        let pct := logo_effective_pct logo_pct
        let target_w := max 1 (qr_w * pct.toNat / 100)
        let target_h := max 1 (logo.height * target_w / logo.width)
        let resized := logo_resize logo target_w target_h
        let pos_x : Int := Int.fdiv ((qr_w : Int) - target_w) 2
        let pos_y : Int := Int.fdiv ((qr_h : Int) - target_h) 2
        paste_with_mask pil_img resized pos_x pos_y

/-- The distinguishable failures of the external encoder (import failure of
`qrcode`, and `DataOverflow` from `qr.make(fit=True)`). -/
inductive EncError where
  | encodingUnavailable
  | dataTooLarge
  deriving DecidableEq, Repr

/-- The failure categories that may reach the caller of `generate_qr`. -/
inductive GenError where
  | encodingUnavailable
  | dataTooLarge
  | writeFailure
  deriving DecidableEq, Repr

/-- An encoder failure propagates to the caller unchanged. -/
def EncError.toGenError : EncError → GenError
  | .encodingUnavailable => .encodingUnavailable
  | .dataTooLarge => .dataTooLarge

/-- One render job: the arguments of `generate_qr`. -/
structure Request where
  data : String
  output_path : String
  box_size : Nat
  border : Nat
  fill_color : Color
  back_color : Color
  style : String
  logo_path : Option String
  logo_size : Int

/-- Environment of one `generate_qr` call: the external encoder, the styled
pathway outcome, the logo environment, and writability of the destination. -/
structure Env where
  encode : String → Except EncError ModuleMatrix
  styled : StyledStatus
  logo : LogoEnv
  writable : String → Bool

/-- Python truthiness of the optional `logo_path` string argument. -/
def pyTruthy : Option String → Bool
  | none => false
  | some s => if s = "" then false else true

/-- Lines 126-129 of src/1.py: a truthy non-square style goes through
`_make_styled_image`, otherwise the plain rendering is used directly. -/
def render_image (qr : QRState) (fill back : Color) (style : String)
    (st : StyledStatus) : Image :=
  if style ≠ "" ∧ style ≠ "square" then _make_styled_image qr fill back style st
  else lib_make_image qr.matrix qr.box_size qr.border fill back

/-- Lines 126-136 of src/1.py: the image fully composed in memory before the
final `pil_img.save` (render, then the optional logo overlay). -/
def compose_image (req : Request) (env : Env) (m : ModuleMatrix) : Image :=
  let qr : QRState := { matrix := m, box_size := req.box_size, border := req.border }
  let img := render_image qr req.fill_color req.back_color req.style env.styled
  if pyTruthy req.logo_path then
    _paste_logo_center img (req.logo_path.getD "") req.logo_size env.logo
  else img

/-- `generate_qr(url, output_path, ...)`: encode (errors propagate), render,
optionally overlay the logo, then save. The second component is the list of
files written (path and full contents), empty when nothing was saved. -/
def generate_qr (req : Request) (env : Env) :
    Except GenError String × List (String × Image) :=
  match env.encode req.data with
  | .error e => (.error e.toGenError, [])
  | .ok m =>
    if env.writable req.output_path then
      (.ok req.output_path, [(req.output_path, compose_image req env m)])
    else
      (.error .writeFailure, [])

/-! ## Helper lemmas -/

/-- The square drawer paints the whole module cell, so the styled pass with
`SquareModuleDrawer` coincides pixel for pixel with the plain rendering. -/
theorem lib_make_image_styled_square (m : ModuleMatrix) (bs b : Nat) (f bk : Color) :
    lib_make_image_styled m bs b f bk Drawer.square = lib_make_image m bs b f bk := by
  have h : styledPixel m bs b f bk Drawer.square = plainPixel m bs b f bk := by
    funext x y
    simp [styledPixel, plainPixel, moduleCovered]
  unfold lib_make_image_styled lib_make_image
  rw [h]

/-- The plain rendering has the pixel dimensions dictated by the matrix. -/
theorem lib_make_image_width (m : ModuleMatrix) (bs b : Nat) (f bk : Color) :
    (lib_make_image m bs b f bk).width = side_px m bs b := rfl

/-- Both branches of the style dispatch produce an image of the full size. -/
theorem render_image_size (qr : QRState) (f bk : Color) (style : String)
    (st : StyledStatus) :
    (render_image qr f bk style st).width = side_px qr.matrix qr.box_size qr.border ∧
    (render_image qr f bk style st).height = side_px qr.matrix qr.box_size qr.border := by
  unfold render_image _make_styled_image
  split
  · cases st <;> exact ⟨rfl, rfl⟩
  · exact ⟨rfl, rfl⟩

/-- The logo overlay never changes the dimensions of the image. -/
theorem paste_logo_center_size (img : Image) (path : String) (pct : Int)
    (env : LogoEnv) :
    (_paste_logo_center img path pct env).width = img.width ∧
    (_paste_logo_center img path pct env).height = img.height := by
  unfold _paste_logo_center
  split
  · exact ⟨rfl, rfl⟩
  · split
    · exact ⟨rfl, rfl⟩
    · split
      · exact ⟨rfl, rfl⟩
      · split
        · exact ⟨rfl, rfl⟩
        · split
          · exact ⟨rfl, rfl⟩
          · exact ⟨rfl, rfl⟩

/-- The composed image always has the dimensions dictated by the matrix. -/
theorem compose_image_size (req : Request) (env : Env) (m : ModuleMatrix) :
    (compose_image req env m).width = (m.side + 2 * req.border) * req.box_size ∧
    (compose_image req env m).height = (m.side + 2 * req.border) * req.box_size := by
  unfold compose_image
  have hr := render_image_size
    { matrix := m, box_size := req.box_size, border := req.border }
    req.fill_color req.back_color req.style env.styled
  split
  · have hp := paste_logo_center_size
      (render_image { matrix := m, box_size := req.box_size, border := req.border }
        req.fill_color req.back_color req.style env.styled)
      (req.logo_path.getD "") req.logo_size env.logo
    exact ⟨hp.1.trans hr.1, hp.2.trans hr.2⟩
  · exact hr

/-! ## Sample values used by the witnesses -/

/-- A tiny concrete module matrix. -/
def sampleMatrix : ModuleMatrix :=
  { side := 2, dark := [[true, false], [false, true]] }

/-- A tiny concrete QR state. -/
def sampleQR : QRState := { matrix := sampleMatrix, box_size := 1, border := 0 }

/-- A logo environment whose file check fails. -/
def sampleLogoEnvMissing : LogoEnv :=
  { is_file := false, pil_available := true, decoded := none,
    resize_raises := false, paste_raises := false }

/-- A logo environment whose paste step raises. -/
def sampleLogoEnvPasteRaises : LogoEnv :=
  { is_file := true, pil_available := true,
    decoded := some { width := 1, height := 1, pixels := [[("red", true)]] },
    resize_raises := false, paste_raises := true }

/-- The plain rendering of the sample matrix. -/
def sampleImage : Image := lib_make_image sampleMatrix 1 0 "black" "white"

/-- A concrete request with no logo. -/
def sampleReq : Request :=
  { data := "u", output_path := "out.png", box_size := 1, border := 0,
    fill_color := "black", back_color := "white", style := "square",
    logo_path := none, logo_size := 20 }

/-- An environment where everything succeeds. -/
def sampleEnv : Env :=
  { encode := fun _ => .ok sampleMatrix, styled := .ok,
    logo := sampleLogoEnvMissing, writable := fun _ => true }

/-- An environment identical to `sampleEnv` except for the cosmetic layers. -/
def sampleEnvB : Env :=
  { encode := fun _ => .ok sampleMatrix, styled := .ok,
    logo := sampleLogoEnvPasteRaises, writable := fun _ => true }

/-- An environment whose encoder reports the data as too large. -/
def sampleEnvEncFail : Env :=
  { encode := fun _ => .error .dataTooLarge, styled := .ok,
    logo := sampleLogoEnvMissing, writable := fun _ => true }

/-! ## Claim theorems -/

/-- C1: for every style value and every failure inside the styled rendering
pathway (styled imports missing, or an exception while building the styled
image), `_make_styled_image` returns the plain square rendering of the same
matrix with the same fill and back colors; being a total function, it never
propagates the failure to the caller. -/
theorem make_styled_image_falls_back_to_plain (qr : QRState) (fill back : Color)
    (style : String) (st : StyledStatus) (h : st ≠ StyledStatus.ok) :
    _make_styled_image qr fill back style st
      = lib_make_image qr.matrix qr.box_size qr.border fill back := by
  cases st with
  | ok => exact absurd rfl h
  | unavailable => rfl
  | raises => rfl

/-- Witness for C1 at a concrete matrix, style and failure. -/
theorem make_styled_image_falls_back_to_plain_witness :
    StyledStatus.raises ≠ StyledStatus.ok ∧
    _make_styled_image sampleQR "black" "white" "circle" StyledStatus.raises
      = lib_make_image sampleMatrix 1 0 "black" "white" :=
  ⟨by decide,
   make_styled_image_falls_back_to_plain sampleQR "black" "white" "circle"
     StyledStatus.raises (by decide)⟩

/-- C7: for every style string outside the six enumerated values, the style
dispatch of `generate_qr` produces exactly the image produced for the style
"square" with the same matrix and colors, whatever the styled pathway does. -/
theorem unsupported_style_renders_as_square (qr : QRState) (fill back : Color)
    (st : StyledStatus) (style : String) (h : style ∉ supported_styles) :
    render_image qr fill back style st = render_image qr fill back "square" st := by
  have hs : render_image qr fill back "square" st
      = lib_make_image qr.matrix qr.box_size qr.border fill back := by
    unfold render_image
    rw [if_neg (by simp)]
  rw [hs]
  simp only [supported_styles, List.mem_cons, List.not_mem_nil, or_false, not_or] at h
  obtain ⟨h1, h2, h3, h4, h5, h6⟩ := h
  unfold render_image
  by_cases he : style = ""
  · rw [if_neg (by simp [he])]
  · rw [if_pos ⟨he, h1⟩]
    unfold _make_styled_image
    cases st with
    | ok =>
      have hd : drawer_map_get style = Drawer.square := by
        unfold drawer_map_get
        rw [if_neg h1, if_neg h2, if_neg h3, if_neg h4, if_neg h5, if_neg h6]
      rw [hd, lib_make_image_styled_square]
    | unavailable => rfl
    | raises => rfl

/-- Witness for C7 at the unsupported style "star". -/
theorem unsupported_style_renders_as_square_witness :
    "star" ∉ supported_styles ∧
    render_image sampleQR "black" "white" "star" StyledStatus.ok
      = render_image sampleQR "black" "white" "square" StyledStatus.ok :=
  ⟨by decide,
   unsupported_style_renders_as_square sampleQR "black" "white" StyledStatus.ok
     "star" (by decide)⟩

/-- C3 counterexample: at sizePercent = 0 the overlay does not use the
clamped value min(40, max(5, 0)) = 5; Python evaluates `logo_pct or 20`
first, so the percent actually used is 20. -/
theorem logo_pct_clamp_claim_false_at_zero :
    logo_effective_pct 0 ≠ min 40 (max 5 (0 : Int)) := by decide

/-- C3 amended: for every integer sizePercent other than 0 (which is falsy in
Python and replaced by the default 20 before clamping), the logo overlay uses
the clamped value min(40, max(5, sizePercent)); in particular 3 behaves as 5
and 55 behaves as 40, silently clamped and never rejected. -/
theorem logo_effective_pct_clamps_nonzero (p : Int) (h : p ≠ 0) :
    logo_effective_pct p = min 40 (max 5 p) := by
  unfold logo_effective_pct pyOrInt
  rw [if_neg h]
  omega

/-- Witness for the amended C3 at the inputs named by the claim. -/
theorem logo_effective_pct_clamps_nonzero_witness :
    (3 : Int) ≠ 0 ∧ logo_effective_pct 3 = min 40 (max 5 (3 : Int)) ∧
    (55 : Int) ≠ 0 ∧ logo_effective_pct 55 = min 40 (max 5 (55 : Int)) :=
  ⟨by decide, logo_effective_pct_clamps_nonzero 3 (by decide),
   by decide, logo_effective_pct_clamps_nonzero 55 (by decide)⟩

/-- C10: a sizePercent of 0 is falsy, so `logo_pct or 20` replaces it by the
default 20 before clamping, while the neighbouring out-of-range values 1-4
are clamped up to the minimum 5. -/
theorem logo_pct_zero_defaults_twenty :
    logo_effective_pct 0 = 20 ∧ logo_effective_pct 0 ≠ 5 ∧
    logo_effective_pct 1 = 5 ∧ logo_effective_pct 2 = 5 ∧
    logo_effective_pct 3 = 5 ∧ logo_effective_pct 4 = 5 := by decide

/-- C4: `_paste_logo_center` returns its input image unchanged on every
failure path: falsy logo path, path not naming a regular file, missing
imaging dependency, logo that cannot be decoded, and any failure during
decode, resize or composite; the failure is swallowed, never raised. -/
theorem paste_logo_center_noop_on_failure (img : Image) (path : String)
    (pct : Int) (env : LogoEnv)
    (h : path = "" ∨ env.is_file = false ∨ env.pil_available = false ∨
         env.decoded = none ∨ (∃ lg, env.decoded = some lg ∧ lg.width = 0) ∨
         env.resize_raises = true ∨ env.paste_raises = true) :
    _paste_logo_center img path pct env = img := by
  unfold _paste_logo_center
  by_cases h1 : path = "" ∨ env.is_file = false
  · rw [if_pos h1]
  · rw [if_neg h1]
    by_cases h2 : env.pil_available = false
    · rw [if_pos h2]
    · rw [if_neg h2]
      split
      · rfl
      · rename_i lg hd
        by_cases h3 : lg.width = 0
        · rw [if_pos h3]
        · rw [if_neg h3]
          have h4 : env.resize_raises = true ∨ env.paste_raises = true := by
            rcases h with h | h | h | h | ⟨lg2, hlg2, hw2⟩ | h | h
            · exact absurd (Or.inl h) h1
            · exact absurd (Or.inr h) h1
            · exact absurd h h2
            · rw [hd] at h; cases h
            · rw [hd] at hlg2
              injection hlg2 with he
              rw [← he] at hw2
              exact absurd hw2 h3
            · exact Or.inl h
            · exact Or.inr h
          rw [if_pos h4]

/-- Witness for C4: a missing logo file is a silent no-op. -/
theorem paste_logo_center_noop_on_failure_witness :
    sampleLogoEnvMissing.is_file = false ∧
    _paste_logo_center sampleImage "logo.png" 20 sampleLogoEnvMissing = sampleImage :=
  ⟨rfl,
   paste_logo_center_noop_on_failure sampleImage "logo.png" 20 sampleLogoEnvMissing
     (Or.inr (Or.inl rfl))⟩

/-- C2: `generate_qr` propagates only encoder failures (encoder unavailable
or data too large) and write failures; whenever the data encodes and the
destination is writable, the call succeeds and writes exactly the composed
QR image, whatever the styling and logo environments do. -/
theorem generate_qr_error_propagation (req : Request) (env : Env) :
    (∀ e, (generate_qr req env).1 = .error e →
      (∃ e2 : EncError, env.encode req.data = .error e2 ∧ e = e2.toGenError) ∨
      (e = GenError.writeFailure ∧ env.writable req.output_path = false)) ∧
    (∀ m, env.encode req.data = .ok m → env.writable req.output_path = true →
      (generate_qr req env).1 = .ok req.output_path ∧
      (generate_qr req env).2 = [(req.output_path, compose_image req env m)]) := by
  constructor
  · intro e he
    unfold generate_qr at he
    cases hd : env.encode req.data with
    | error e2 =>
      rw [hd] at he
      simp only [Except.error.injEq] at he
      exact Or.inl ⟨e2, rfl, he.symm⟩
    | ok m =>
      rw [hd] at he
      dsimp only at he
      by_cases hw : env.writable req.output_path
      · rw [if_pos hw] at he
        simp at he
      · rw [if_neg hw] at he
        simp only [Except.error.injEq] at he
        simp only [Bool.not_eq_true] at hw
        exact Or.inr ⟨he.symm, hw⟩
  · intro m hm hw
    unfold generate_qr
    rw [hm]
    dsimp only
    rw [if_pos hw]
    exact ⟨rfl, rfl⟩

/-- Witness for C2: a concrete successful call writes the composed image. -/
theorem generate_qr_error_propagation_witness :
    sampleEnv.encode "u" = Except.ok sampleMatrix ∧
    sampleEnv.writable "out.png" = true ∧
    (generate_qr sampleReq sampleEnv).1 = Except.ok "out.png" ∧
    (generate_qr sampleReq sampleEnv).2
      = [("out.png", compose_image sampleReq sampleEnv sampleMatrix)] :=
  ⟨rfl, rfl, (generate_qr_error_propagation sampleReq sampleEnv).2 sampleMatrix rfl rfl⟩

/-- C5: every image file written by `generate_qr` has pixel dimensions
`(matrixSide + 2*border) * boxSize` on each axis, for the module matrix the
encoder actually returned for the data. -/
theorem generate_qr_image_dimensions (req : Request) (env : Env)
    (m : ModuleMatrix) (path : String) (img : Image)
    (henc : env.encode req.data = .ok m)
    (hw : (generate_qr req env).2 = [(path, img)]) :
    img.width = (m.side + 2 * req.border) * req.box_size ∧
    img.height = (m.side + 2 * req.border) * req.box_size := by
  unfold generate_qr at hw
  rw [henc] at hw
  dsimp only at hw
  by_cases hwr : env.writable req.output_path
  · rw [if_pos hwr] at hw
    simp only [List.cons.injEq, Prod.mk.injEq, and_true] at hw
    rw [← hw.2]
    exact compose_image_size req env m
  · rw [if_neg hwr] at hw
    simp at hw

/-- The image the sample call composes in memory. -/
def sampleOutImg : Image := compose_image sampleReq sampleEnv sampleMatrix

/-- Witness for C5 at a concrete request and encoder result. -/
theorem generate_qr_image_dimensions_witness :
    sampleEnv.encode "u" = Except.ok sampleMatrix ∧
    (generate_qr sampleReq sampleEnv).2 = [("out.png", sampleOutImg)] ∧
    sampleOutImg.width = (sampleMatrix.side + 2 * sampleReq.border) * sampleReq.box_size ∧
    sampleOutImg.height = (sampleMatrix.side + 2 * sampleReq.border) * sampleReq.box_size :=
  ⟨rfl, rfl,
   generate_qr_image_dimensions sampleReq sampleEnv sampleMatrix "out.png"
     sampleOutImg rfl rfl⟩

/-- C8: a call to `generate_qr` writes at most one file; exactly one when it
returns successfully, and none at all when the encoder fails (so no partial
file exists when an error precedes the final in-memory composition). -/
theorem generate_qr_single_write (req : Request) (env : Env) :
    (generate_qr req env).2.length ≤ 1 ∧
    (∀ p, (generate_qr req env).1 = .ok p → (generate_qr req env).2.length = 1) ∧
    (∀ e : EncError, env.encode req.data = .error e → (generate_qr req env).2 = []) := by
  unfold generate_qr
  cases hd : env.encode req.data with
  | error e2 => exact ⟨by simp, by simp, fun e _ => rfl⟩
  | ok m =>
    dsimp only
    by_cases hw : env.writable req.output_path
    · rw [if_pos hw]
      exact ⟨by simp, fun p _ => rfl, by simp⟩
    · rw [if_neg hw]
      exact ⟨by simp, by simp, by simp⟩

/-- Witness for C8: a failing encoder leaves the write trace empty. -/
theorem generate_qr_single_write_witness :
    (generate_qr sampleReq sampleEnvEncFail).2.length ≤ 1 ∧
    sampleEnvEncFail.encode "u" = Except.error EncError.dataTooLarge ∧
    (generate_qr sampleReq sampleEnvEncFail).2 = [] :=
  ⟨(generate_qr_single_write sampleReq sampleEnvEncFail).1, rfl,
   (generate_qr_single_write sampleReq sampleEnvEncFail).2.2 EncError.dataTooLarge rfl⟩

/-- C9: rendering is deterministic: two `generate_qr` calls with the same
request and no logo write pixel-identical images whenever their environments
agree on the encoder result and the styled pathway outcome, even if the
filesystem and logo environments differ arbitrarily. -/
theorem generate_qr_deterministic_no_logo (req : Request) (env1 env2 : Env)
    (path1 path2 : String) (img1 img2 : Image)
    (hlogo : pyTruthy req.logo_path = false)
    (henc : env1.encode req.data = env2.encode req.data)
    (hst : env1.styled = env2.styled)
    (h1 : (generate_qr req env1).2 = [(path1, img1)])
    (h2 : (generate_qr req env2).2 = [(path2, img2)]) :
    img1 = img2 := by
  unfold generate_qr at h1 h2
  cases hd1 : env1.encode req.data with
  | error e => rw [hd1] at h1; simp at h1
  | ok m =>
    rw [hd1] at h1
    have hd2 : env2.encode req.data = .ok m := by rw [← henc]; exact hd1
    rw [hd2] at h2
    dsimp only at h1 h2
    by_cases hw1 : env1.writable req.output_path
    · rw [if_pos hw1] at h1
      by_cases hw2 : env2.writable req.output_path
      · rw [if_pos hw2] at h2
        simp only [List.cons.injEq, Prod.mk.injEq, and_true] at h1 h2
        rw [← h1.2, ← h2.2]
        unfold compose_image
        simp only [hlogo, Bool.false_eq_true, if_false]
        rw [hst]
      · rw [if_neg hw2] at h2; simp at h2
    · rw [if_neg hw1] at h1; simp at h1

/-- The image composed by the sample call whose logo environment differs. -/
def sampleOutImgB : Image := compose_image sampleReq sampleEnvB sampleMatrix

/-- Witness for C9: two concrete calls differing only in the logo
environment write the same image. -/
theorem generate_qr_deterministic_no_logo_witness :
    pyTruthy sampleReq.logo_path = false ∧
    (generate_qr sampleReq sampleEnv).2 = [("out.png", sampleOutImg)] ∧
    (generate_qr sampleReq sampleEnvB).2 = [("out.png", sampleOutImgB)] ∧
    sampleOutImg = sampleOutImgB :=
  ⟨rfl, rfl, rfl,
   generate_qr_deterministic_no_logo sampleReq sampleEnv sampleEnvB "out.png"
     "out.png" sampleOutImg sampleOutImgB rfl rfl rfl rfl rfl⟩

end QRGen
